import Mathlib

/-!
Shallow embedding of the sport-server repository's cache / fetch-coordinator /
refresh-scheduler core.

Two source files are embedded:
* `src/unnamed/part_000` — the revision holding `buildCacheKey`, `getDateRange`,
  `fetchSportData`, `fetchDataByDate`, `startSportUpdates`, `stopSportUpdates`,
  the socket subscribe/unsubscribe/disconnect handlers and the inactivity sweep.
  Embedded in namespace `Sport`.
* `src/index.js` (its last revision, which is the one with the
  subscriber-count check inside the timer tick) — `fetchMatchDetails`,
  `fetchMatches`, `startMatchUpdates`, the match-details REST endpoint and the
  cleanup sweep.  Embedded in namespace `IndexJs`.

Timestamps are `Nat` (milliseconds, like `Date.now()`); dates are `Int`
day-offsets (the JS code formats them as `YYYY-MM-DD` strings; only their
identity and order matter here).  Upstream I/O is modelled by explicit
response oracles passed as arguments; every upstream HTTP request the code
would issue is recorded in a call log so that "number of upstream calls" is
a provable quantity.
-/

namespace Sport

/-- `UPDATE_INTERVAL` from part_000 (the comment in the source says 1 minute,
the value is 1 800 000 ms). -/
def UPDATE_INTERVAL : Nat := 1800000

/-- `CACHE_TTL = 60000` (part_000). -/
def CACHE_TTL : Nat := 60000

/-- `MAX_LIMIT = 100` — maximum matches per request. -/
def MAX_LIMIT : Nat := 100

/-- `DAYS_RANGE = 7` — days of data fetched by the date fallback. -/
def DAYS_RANGE : Nat := 7

/-- `INACTIVITY_TIMEOUT = 300000` — 5 minutes. -/
def INACTIVITY_TIMEOUT : Nat := 300000

/-- A record in an upstream payload.  `nullv` stands for the JSON `null`
value (which `fetchSportData` would wrap into a one-element array). -/
inductive Rec where
  | item : Nat → Rec
  | nullv : Rec
deriving DecidableEq, Repr

/-- A parameter value in a query-parameter object (number or string). -/
inductive JVal where
  | num : Nat → JVal
  | str : String → JVal
deriving DecidableEq, Repr

/-- A JS object is a finite map with insertion order; we embed a parameter
object as its key/value pairs in insertion order (JS objects never hold two
bindings of the same key). -/
abbrev Params := List (String × JVal)

/-- How `JSON.stringify` renders a parameter value. -/
def jvalToString : JVal → String
  | JVal.num n => toString n
  | JVal.str s => "\x22" ++ s ++ "\x22"

/-- `buildCacheKey(sport, params)` from part_000: sort the parameter names,
rebuild the object in sorted-key order, and return
`` `${sport}:${JSON.stringify(sortedParams)}` ``. -/
def buildCacheKey (sport : String) (params : Params) : String :=
  let sortedKeys := List.insertionSort (fun a b : String => a ≤ b) (params.map Prod.fst)
  let sortedParams := sortedKeys.filterMap (fun k => (params.lookup k).map (fun v => (k, v)))
  sport ++ ":" ++ "\x7b" ++
    String.intercalate ","
      (sortedParams.map (fun p => "\x22" ++ p.1 ++ "\x22:" ++ jvalToString p.2)) ++
    "\x7d"

/-- The body of an upstream HTTP 200 response: a JSON array, a single
(non-null, non-array) value, or `null`. -/
inductive JData where
  | arr : List Rec → JData
  | obj : Rec → JData
  | nul : JData
deriving DecidableEq, Repr

/-- `Array.isArray(response.data) ? response.data : [response.data]`
(used in `fetchSportData`; note a `null` body becomes `[null]`). -/
def normalizeSingle : JData → List Rec
  | JData.arr xs => xs
  | JData.obj x => [x]
  | JData.nul => [Rec.nullv]

/-- The per-date branch of `fetchDataByDate`: `if (response.data)` skips a
falsy (`null`) body; otherwise the body is array-normalized and appended. -/
def dateData : JData → List Rec
  | JData.arr xs => xs
  | JData.obj x => [x]
  | JData.nul => []

/-- An axios failure: `status` is `error.response?.status` (absent for
network-level failures); `tag` keeps distinct failures distinguishable so
that "the original failure is propagated" is expressible. -/
structure UpError where
  status : Option Nat
  tag : Nat
deriving DecidableEq, Repr

/-- Outcome of one upstream HTTP request. -/
inductive UpResult where
  | ok : JData → UpResult
  | err : UpError → UpResult
deriving DecidableEq, Repr

/-- A cache entry `{ data, timestamp }`. -/
structure Entry (α : Type) where
  data : α
  timestamp : Nat
deriving DecidableEq, Repr

/-- A `Map` from string keys to entries. -/
abbrev Cache (α : Type) := List (String × Entry α)

/-- `cache.get(key)`. -/
def cacheGet {α : Type} (c : Cache α) (k : String) : Option (Entry α) :=
  (c.find? (fun p => p.1 == k)).map Prod.snd

/-- `cache.set(key, e)` — replaces any previous entry for `key`. -/
def cacheSet {α : Type} (c : Cache α) (k : String) (e : Entry α) : Cache α :=
  (k, e) :: c.filter (fun p => p.1 != k)

/-- The freshness check used on every cache lookup:
`Date.now() - entry.timestamp < ttl`. -/
def isFresh {α : Type} (now : Nat) (e : Entry α) (ttl : Nat) : Bool :=
  now - e.timestamp < ttl

/-- `getDateRange(days = DAYS_RANGE)`: start at
`moment().subtract(floor(days/2), 'days')` and take `days` consecutive
dates.  `today` is the current date as a day number. -/
def getDateRange (today : Int) (days : Nat := DAYS_RANGE) : List Int :=
  (List.range days).map (fun i : Nat => today - ((days / 2 : Nat) : Int) + (i : Int))

/-- One upstream HTTP request issued by the coordinator: either the single
(no-date) call of `fetchSportData` or a per-date call of `fetchDataByDate`. -/
inductive Call where
  | singleCall : Call
  | dateCall : Int → Call
deriving DecidableEq, Repr

/-- `fetchDataByDate(sport, params)` from part_000.  `byDate` maps each date
to the outcome of the upstream call for that date.  For every date in
`getDateRange()` one request is issued (recorded in the call log, in order);
a failed date is only logged and skipped; finally the concatenation is
stored in the cache under `buildCacheKey(sport, params)` with a fresh
timestamp and returned.  The function never throws. -/
def fetchDataByDate (byDate : Int → UpResult) (sport : String) (params : Params)
    (today : Int) (now : Nat) (cache : Cache (List Rec)) :
    List Rec × Cache (List Rec) × List Call :=
  let dates := getDateRange today
  let allData := dates.foldl
    (fun acc date =>
      match byDate date with
      | UpResult.ok d => acc ++ dateData d
      | UpResult.err _ => acc)
    []
  let cacheKey := buildCacheKey sport params
  (allData, cacheSet cache cacheKey ⟨allData, now⟩, dates.map Call.dateCall)

/-- The `try`/`catch` body of `fetchSportData`, entered when there is no
fresh cache entry.  `single` is the outcome of the one plain upstream call;
`cachedData` is the (possibly stale) entry that was looked up before the
`try`. -/
def fetchAfterMiss (single : UpResult) (byDate : Int → UpResult) (sport : String)
    (params : Params) (today : Int) (now : Nat) (cache : Cache (List Rec))
    (cachedData : Option (Entry (List Rec))) :
    Except UpError (List Rec) × Cache (List Rec) × List Call :=
  match single with
  | UpResult.ok d =>
    let matchesArr := normalizeSingle d
    if MAX_LIMIT ≤ matchesArr.length then
      let r := fetchDataByDate byDate sport params today now cache
      (Except.ok r.1, r.2.1, Call.singleCall :: r.2.2)
    else
      (Except.ok matchesArr,
       cacheSet cache (buildCacheKey sport params) ⟨matchesArr, now⟩,
       [Call.singleCall])
  | UpResult.err e =>
    if e.status == some 400 || e.status == some 500 then
      let r := fetchDataByDate byDate sport params today now cache
      (Except.ok r.1, r.2.1, Call.singleCall :: r.2.2)
    else
      match cachedData with
      | some ce => (Except.ok ce.data, cache, [Call.singleCall])
      | none => (Except.error e, cache, [Call.singleCall])

/-- `fetchSportData(sport, params)` from part_000: look the key up, serve a
fresh entry without any upstream call, otherwise run the `try`/`catch` body
(`fetchAfterMiss`). -/
def fetchSportData (single : UpResult) (byDate : Int → UpResult) (sport : String)
    (params : Params) (today : Int) (now : Nat) (cache : Cache (List Rec)) :
    Except UpError (List Rec) × Cache (List Rec) × List Call :=
  let cacheKey := buildCacheKey sport params
  let cachedData := cacheGet cache cacheKey
  match cachedData with
  | some e =>
    if isFresh now e CACHE_TTL then (Except.ok e.data, cache, [])
    else fetchAfterMiss single byDate sport params today now cache cachedData
  | none => fetchAfterMiss single byDate sport params today now cache none

/-! ### part_000 scheduler

`activeSubscriptions[sport] = { users: new Set(), interval: null, lastActive: null }`.
`timerCount` counts the live `setInterval` timers armed for the topic (the
handle itself is `timerArmed`); `setInterval` increments it, `clearInterval`
decrements it, so "only one timer exists" is a provable statement rather
than a consequence of the state type. -/

/-- Per-sport subscription state of part_000. -/
structure PState where
  users : List Nat
  timerArmed : Bool
  timerCount : Nat
  lastActive : Option Nat
deriving DecidableEq, Repr

/-- `Set.prototype.add` — inserting an already-present id leaves the set
unchanged. -/
def addUser (us : List Nat) (sid : Nat) : List Nat :=
  if us.contains sid then us else sid :: us

/-- Result of running one scheduler operation of part_000:
the new state, the cache after any coordinator run, the upstream requests
issued, how many `setInterval` timers were created, how many
fetch-and-broadcast bodies (`updateData`) ran, and whether a broadcast to
the sport's room was emitted. -/
structure PStep where
  st : PState
  cache : Cache (List Rec)
  calls : List Call
  timersCreated : Nat
  fetchRuns : Nat
  broadcast : Bool
deriving Repr

/-- The `updateData` closure inside `startSportUpdates`: run
`fetchSportData(sport)` (no extra params), emit on success, and stamp
`lastActive`.  A rejected fetch skips both the emit and the stamp (there is
no `catch` in the source closure).  It does not consult the subscriber set
and never touches the timer. -/
def updateData (single : UpResult) (byDate : Int → UpResult) (sport : String)
    (today : Int) (now : Nat) (st : PState) (cache : Cache (List Rec)) : PStep :=
  match fetchSportData single byDate sport [] today now cache with
  | (Except.ok _, c, log) =>
    ⟨{ st with lastActive := some now }, c, log, 0, 1, true⟩
  | (Except.error _, c, log) =>
    ⟨st, c, log, 0, 1, false⟩

/-- `startSportUpdates(sport)` from part_000: if an interval handle already
exists, return at once; otherwise run `updateData` immediately and then arm
the recurring timer. -/
def startSportUpdates (single : UpResult) (byDate : Int → UpResult) (sport : String)
    (today : Int) (now : Nat) (st : PState) (cache : Cache (List Rec)) : PStep :=
  if st.timerArmed then ⟨st, cache, [], 0, 0, false⟩
  else
    let r := updateData single byDate sport today now st cache
    ⟨{ r.st with timerArmed := true, timerCount := r.st.timerCount + 1 },
      r.cache, r.calls, 1, r.fetchRuns, r.broadcast⟩

/-- `stopSportUpdates(sport)`: clear the interval if one exists. -/
def stopSportUpdates (st : PState) : PState :=
  if st.timerArmed then { st with timerArmed := false, timerCount := st.timerCount - 1 }
  else st

/-- The socket `subscribe` handler (part_000): add the socket to the sport's
user set and call `startSportUpdates` exactly when the set's size becomes 1.
(The handler additionally replays the canonical cached payload to the new
subscriber; that emit contacts no upstream and is omitted from `PStep`.) -/
def subscribeHandler (single : UpResult) (byDate : Int → UpResult) (sport : String)
    (today : Int) (now : Nat) (sid : Nat) (st : PState) (cache : Cache (List Rec)) : PStep :=
  let us := addUser st.users sid
  let st₁ := { st with users := us }
  if us.length = 1 then startSportUpdates single byDate sport today now st₁ cache
  else ⟨st₁, cache, [], 0, 0, false⟩

/-- The socket `unsubscribe` handler (part_000): remove the socket and stamp
`lastActive` when the set becomes empty. -/
def unsubscribeHandler (now : Nat) (sid : Nat) (st : PState) : PState :=
  let us := st.users.erase sid
  { st with
    users := us
    lastActive := if us.length = 0 then some now else st.lastActive }

/-- The per-sport body of the `disconnect` handler (part_000): only acts if
the socket is in the set. -/
def disconnectHandler (now : Nat) (sid : Nat) (st : PState) : PState :=
  if st.users.contains sid then
    let us := st.users.erase sid
    { st with
      users := us
      lastActive := if us.length = 0 then some now else st.lastActive }
  else st

/-- JS truthiness of the stored `lastActive` number (`null` and `0` are
falsy). -/
def truthyTime : Option Nat → Bool
  | none => false
  | some t => t != 0

/-- The per-sport body of the inactivity sweep (part_000):
`users.size === 0 && lastActive && now - lastActive > INACTIVITY_TIMEOUT`
stops the updates. -/
def sweep (now : Nat) (st : PState) : PState :=
  if st.users.length = 0 ∧ truthyTime st.lastActive = true ∧
      INACTIVITY_TIMEOUT < now - (st.lastActive.getD 0) then
    stopSportUpdates st
  else st

/-- A timer tick of part_000 is exactly one run of `updateData`. -/
def tick (single : UpResult) (byDate : Int → UpResult) (sport : String)
    (today : Int) (now : Nat) (st : PState) (cache : Cache (List Rec)) : PStep :=
  updateData single byDate sport today now st cache

/-- The one-timer-per-topic invariant: the counted live timers never exceed
one and the stored handle reflects them. -/
def TimerInv (armed : Bool) (count : Nat) : Prop :=
  count ≤ 1 ∧ (armed = true ↔ count = 1)

end Sport

namespace IndexJs

open Sport

/-- `UPDATE_INTERVAL = 60000` (index.js). -/
def UPDATE_INTERVAL : Nat := 60000

/-- `CACHE_TTL = 30000` (index.js). -/
def CACHE_TTL : Nat := 30000

/-- `INACTIVITY_TIMEOUT = 300000` (index.js). -/
def INACTIVITY_TIMEOUT : Nat := 300000

/-- JS truthiness of a response body: `null` is falsy, arrays and objects
(even empty ones) are truthy.  Used by `if (details)` checks. -/
def JData.truthy : JData → Bool
  | JData.nul => false
  | _ => true

/-- `match.id` of a record (the identifier carried by a list item). -/
def recId : Rec → Nat
  | Rec.item n => n
  | Rec.nullv => 0

/-- The miss path of `fetchMatchDetails` (its `try`/`catch`): one upstream
request; on success store and return the raw body; on failure return the
(possibly stale) cached body if the key is present, else `null`. -/
def fetchMatchDetailsMiss (resp : UpResult) (cacheKey : String) (now : Nat)
    (dc : Cache JData) : JData × Cache JData × Nat :=
  match resp with
  | UpResult.ok d => (d, cacheSet dc cacheKey ⟨d, now⟩, 1)
  | UpResult.err _ =>
    match cacheGet dc cacheKey with
    | some cached => (cached.data, dc, 1)
    | none => (JData.nul, dc, 1)

/-- `fetchMatchDetails(sport, matchId)` from index.js: key
`` `${sport}-${matchId}` ``, serve a fresh cache entry with no upstream
request, otherwise run the miss path.  The returned `Nat` counts upstream
requests.  The function never throws. -/
def fetchMatchDetails (resp : UpResult) (sport : String) (matchId : Nat)
    (now : Nat) (dc : Cache JData) : JData × Cache JData × Nat :=
  let cacheKey := sport ++ "-" ++ toString matchId
  match cacheGet dc cacheKey with
  | some cached =>
    if isFresh now cached CACHE_TTL then (cached.data, dc, 0)
    else fetchMatchDetailsMiss resp cacheKey now dc
  | none => fetchMatchDetailsMiss resp cacheKey now dc

/-- Body of an upstream matches response for `fetchMatches`: `none` is a
falsy `response.data` (replaced by `[]` via `|| []`). -/
inductive MResp where
  | ok : Option (List Rec) → MResp
  | err : UpError → MResp
deriving Repr

/-- `fetchMatches(sport, params, retries = 3)` from index.js (last
revision): cache key `` `${sport}:${date}:${timezone}:${limit}` ``; a fresh
entry is served without an upstream request; on failure a stale entry is
served if present, otherwise the call retries (up to `retries` more
requests) and finally rethrows.  `resp` gives the outcome of the attempt
with a given number of remaining retries; the returned `Nat` counts
upstream requests. -/
def fetchMatches (resp : Nat → MResp) (sport date timezone : String)
    (limit : Nat) (retries : Nat) (now : Nat) (mc : Cache (List Rec)) :
    Except UpError (List Rec) × Cache (List Rec) × Nat :=
  let cacheKey := sport ++ ":" ++ date ++ ":" ++ timezone ++ ":" ++ toString limit
  let cached := cacheGet mc cacheKey
  match cached with
  | some e =>
    if isFresh now e CACHE_TTL then (Except.ok e.data, mc, 0)
    else fetchMatchesMiss resp sport date timezone limit retries now mc cached
  | none => fetchMatchesMiss resp sport date timezone limit retries now mc none
where
  /-- The `try`/`catch` of `fetchMatches`: request, store-and-return on
  success (`response.data || []`); on failure serve a stale entry if one
  exists, else recurse while `retries > 0`, else rethrow. -/
  fetchMatchesMiss (resp : Nat → MResp) (sport date timezone : String)
      (limit : Nat) (retries : Nat) (now : Nat) (mc : Cache (List Rec))
      (cached : Option (Entry (List Rec))) :
      Except UpError (List Rec) × Cache (List Rec) × Nat :=
    let cacheKey := sport ++ ":" ++ date ++ ":" ++ timezone ++ ":" ++ toString limit
    match resp retries with
    | MResp.ok d =>
      let data := d.getD []
      (Except.ok data, cacheSet mc cacheKey ⟨data, now⟩, 1)
    | MResp.err e =>
      match cached with
      | some ce => (Except.ok ce.data, mc, 1)
      | none =>
        match retries with
        | r + 1 =>
          let rest := fetchMatchesMiss resp sport date timezone limit r now mc none
          (rest.1, rest.2.1, rest.2.2 + 1)
        | 0 => (Except.error e, mc, 1)

/-- Per-sport subscription state of index.js:
`{ users, interval, lastUpdated, isActive }`, with `timerCount` counting
live `setInterval` timers as in `Sport.PState`. -/
structure IState where
  users : List Nat
  timerArmed : Bool
  timerCount : Nat
  lastUpdated : Option Nat
  isActive : Bool
deriving DecidableEq, Repr

/-- Result of one index.js scheduler operation. -/
structure IStep where
  st : IState
  mc : Cache (List Rec)
  dc : Cache JData
  calls : Nat
  timersCreated : Nat
  detailBroadcasts : List Nat
  matchesBroadcast : Bool
deriving Repr

/-- The `updateMatches` closure inside `startMatchUpdates` (index.js, last
revision) — the timer-tick body.  If the sport still has users it fetches
today's matches (with up to 3 retries), fetches details for each
subscribed match in the list and emits per-match and whole-list updates;
if the user set is empty it clears its own interval instead and issues no
upstream request.  `matchSubs` is `Object.keys(activeMatchSubscriptions[sport])`. -/
def updateMatches (mresp : Nat → MResp) (dresp : Nat → UpResult) (sport : String)
    (today : String) (now : Nat) (matchSubs : List Nat) (st : IState)
    (mc : Cache (List Rec)) (dc : Cache JData) : IStep :=
  if 0 < st.users.length then
    match fetchMatches mresp sport today "UTC" 100 3 now mc with
    | (Except.error _, mc', n) => ⟨st, mc', dc, n, 0, [], false⟩
    | (Except.ok ms, mc', n) =>
      let relevant := ms.filter (fun m => matchSubs.contains (recId m))
      let folded := relevant.foldl
        (fun (acc : Cache JData × Nat × List Nat) m =>
          let r := fetchMatchDetails (dresp (recId m)) sport (recId m) now acc.1
          (r.2.1, acc.2.1 + r.2.2,
           if (JData.truthy r.1) then acc.2.2 ++ [recId m] else acc.2.2))
        (dc, 0, [])
      ⟨{ st with lastUpdated := some now }, mc', folded.1, n + folded.2.1, 0,
        folded.2.2, decide (0 < st.users.length)⟩
  else
    if st.timerArmed then
      ⟨{ st with timerArmed := false, timerCount := st.timerCount - 1, isActive := false },
        mc, dc, 0, 0, [], false⟩
    else ⟨st, mc, dc, 0, 0, [], false⟩

/-- `startMatchUpdates(sport)` from index.js: if an interval handle exists,
just set `isActive` and return (no fetch, no new timer); otherwise set
`isActive`, run `updateMatches` once immediately and arm the recurring
timer. -/
def startMatchUpdates (mresp : Nat → MResp) (dresp : Nat → UpResult) (sport : String)
    (today : String) (now : Nat) (matchSubs : List Nat) (st : IState)
    (mc : Cache (List Rec)) (dc : Cache JData) : IStep :=
  if st.timerArmed then ⟨{ st with isActive := true }, mc, dc, 0, 0, [], false⟩
  else
    let st₁ := { st with isActive := true }
    let r := updateMatches mresp dresp sport today now matchSubs st₁ mc dc
    ⟨{ r.st with timerArmed := true, timerCount := r.st.timerCount + 1 },
      r.mc, r.dc, r.calls, 1, r.detailBroadcasts, r.matchesBroadcast⟩

/-- The `subscribe-matches` handler (index.js): add the socket to the user
set and call `startMatchUpdates` when the sport is not marked active.  (The
cached replay to the new subscriber contacts no upstream and is omitted.) -/
def subscribeMatchesHandler (mresp : Nat → MResp) (dresp : Nat → UpResult)
    (sport : String) (today : String) (now : Nat) (matchSubs : List Nat)
    (sid : Nat) (st : IState) (mc : Cache (List Rec)) (dc : Cache JData) : IStep :=
  let st₁ := { st with users := addUser st.users sid }
  if st₁.isActive then ⟨st₁, mc, dc, 0, 0, [], false⟩
  else startMatchUpdates mresp dresp sport today now matchSubs st₁ mc dc

/-- The `unsubscribe-matches` handler (index.js): remove the socket; when
the set becomes empty stamp `lastUpdated` and clear `isActive`. -/
def unsubscribeMatchesHandler (now : Nat) (sid : Nat) (st : IState) : IState :=
  let us := st.users.erase sid
  if us.length = 0 then
    { st with users := us, lastUpdated := some now, isActive := false }
  else { st with users := us }

/-- The per-sport body of the `disconnect` handler (index.js): only acts if
the socket is in the set. -/
def disconnectMatchesHandler (now : Nat) (sid : Nat) (st : IState) : IState :=
  if st.users.contains sid then
    let us := st.users.erase sid
    if us.length = 0 then
      { st with users := us, lastUpdated := some now, isActive := false }
    else { st with users := us }
  else st

/-- The per-sport body of `cleanupInactiveSubscriptions` (index.js): an
empty user set older than the inactivity timeout clears `isActive` (the
timer itself is cleared by the next tick).  A `null` `lastUpdated` is
coerced to `0` by JS subtraction. -/
def cleanupInactiveSubscriptions (now : Nat) (st : IState) : IState :=
  if st.users.length = 0 ∧ INACTIVITY_TIMEOUT < now - (st.lastUpdated.getD 0) then
    { st with isActive := false }
  else st

/-- The `GET /api/:sport/matches/:id` endpoint (index.js): answer 200 with
the details when `fetchMatchDetails` returns a truthy body, else 404
`Match details not found`.  (The handler's `catch`/500 branch is
unreachable because `fetchMatchDetails` never throws.) -/
def matchDetailsEndpoint (resp : UpResult) (sport : String) (matchId : Nat)
    (now : Nat) (dc : Cache JData) : Nat × JData × Cache JData :=
  let r := fetchMatchDetails resp sport matchId now dc
  if JData.truthy r.1 then (200, r.1, r.2.1) else (404, JData.nul, r.2.1)

end IndexJs

/-! ### Derived vocabulary and helper lemmas -/

namespace Sport

/-- The concatenation, in date order, of the records of the successful
per-date calls (a failed or `null`-bodied date contributes nothing) — the
payload the spec says fallback-by-date returns. -/
def dateConcat (byDate : Int → UpResult) (today : Int) : List Rec :=
  ((getDateRange today).map (fun d =>
    match byDate d with
    | UpResult.ok j => dateData j
    | UpResult.err _ => [])).flatten

lemma foldl_dateData (byDate : Int → UpResult) (l : List Int) (acc : List Rec) :
    l.foldl (fun a date =>
        match byDate date with
        | UpResult.ok d => a ++ dateData d
        | UpResult.err _ => a) acc
      = acc ++ (l.map (fun d =>
        match byDate d with
        | UpResult.ok j => dateData j
        | UpResult.err _ => [])).flatten := by
  induction l generalizing acc with
  | nil => simp
  | cons x xs ih => cases h : byDate x <;> simp [h, ih]

/-- `fetchDataByDate` in closed form: the date-ordered concatenation, the
unconditional cache overwrite, and one request per date of the window. -/
lemma fetchDataByDate_eq (byDate : Int → UpResult) (sport : String) (params : Params)
    (today : Int) (now : Nat) (cache : Cache (List Rec)) :
    fetchDataByDate byDate sport params today now cache =
      (dateConcat byDate today,
       cacheSet cache (buildCacheKey sport params) ⟨dateConcat byDate today, now⟩,
       (getDateRange today).map Call.dateCall) := by
  unfold fetchDataByDate dateConcat
  simp [foldl_dateData]

lemma cacheGet_cacheSet_self {α : Type} (c : Cache α) (k : String) (e : Entry α) :
    cacheGet (cacheSet c k e) k = some e := by
  simp [cacheGet, cacheSet]

lemma getDateRange_length (today : Int) : (getDateRange today).length = DAYS_RANGE := by
  unfold getDateRange
  exact (List.length_map _ _).trans (List.length_range _)

lemma getDateRange_seven (today : Int) :
    getDateRange today = [today - 3, today - 2, today - 1, today,
      today + 1, today + 2, today + 3] := by
  simp [getDateRange, DAYS_RANGE, List.range_succ]
  refine ⟨?_, ?_, ?_, ?_⟩ <;> omega

lemma fetchSportData_fresh (single : UpResult) (byDate : Int → UpResult)
    (sport : String) (params : Params) (today : Int) (now : Nat)
    (cache : Cache (List Rec)) (e : Entry (List Rec))
    (hget : cacheGet cache (buildCacheKey sport params) = some e)
    (hfresh : isFresh now e CACHE_TTL = true) :
    fetchSportData single byDate sport params today now cache =
      (Except.ok e.data, cache, []) := by
  simp [fetchSportData, hget, hfresh]

lemma fetchSportData_stale (single : UpResult) (byDate : Int → UpResult)
    (sport : String) (params : Params) (today : Int) (now : Nat)
    (cache : Cache (List Rec)) (e : Entry (List Rec))
    (hget : cacheGet cache (buildCacheKey sport params) = some e)
    (hfresh : isFresh now e CACHE_TTL = false) :
    fetchSportData single byDate sport params today now cache =
      fetchAfterMiss single byDate sport params today now cache (some e) := by
  simp [fetchSportData, hget, hfresh]

lemma fetchSportData_nocache (single : UpResult) (byDate : Int → UpResult)
    (sport : String) (params : Params) (today : Int) (now : Nat)
    (cache : Cache (List Rec))
    (hget : cacheGet cache (buildCacheKey sport params) = none) :
    fetchSportData single byDate sport params today now cache =
      fetchAfterMiss single byDate sport params today now cache none := by
  simp [fetchSportData, hget]

lemma fetchSportData_miss (single : UpResult) (byDate : Int → UpResult)
    (sport : String) (params : Params) (today : Int) (now : Nat)
    (cache : Cache (List Rec))
    (hmiss : ∀ e, cacheGet cache (buildCacheKey sport params) = some e →
        isFresh now e CACHE_TTL = false) :
    fetchSportData single byDate sport params today now cache =
      fetchAfterMiss single byDate sport params today now cache
        (cacheGet cache (buildCacheKey sport params)) := by
  cases hget : cacheGet cache (buildCacheKey sport params) with
  | none => simp [fetchSportData_nocache single byDate sport params today now cache hget]
  | some e =>
    simp [fetchSportData_stale single byDate sport params today now cache e hget
      (hmiss e hget)]

lemma fetchAfterMiss_trunc (single : UpResult) (byDate : Int → UpResult)
    (sport : String) (params : Params) (today : Int) (now : Nat)
    (cache : Cache (List Rec)) (cd : Option (Entry (List Rec))) (d : JData)
    (hd : single = UpResult.ok d)
    (htrunc : MAX_LIMIT ≤ (normalizeSingle d).length) :
    fetchAfterMiss single byDate sport params today now cache cd =
      (Except.ok (dateConcat byDate today),
       cacheSet cache (buildCacheKey sport params) ⟨dateConcat byDate today, now⟩,
       Call.singleCall :: (getDateRange today).map Call.dateCall) := by
  subst hd
  simp [fetchAfterMiss, htrunc, fetchDataByDate_eq]

lemma fetchAfterMiss_small (single : UpResult) (byDate : Int → UpResult)
    (sport : String) (params : Params) (today : Int) (now : Nat)
    (cache : Cache (List Rec)) (cd : Option (Entry (List Rec))) (d : JData)
    (hd : single = UpResult.ok d)
    (hsmall : (normalizeSingle d).length < MAX_LIMIT) :
    fetchAfterMiss single byDate sport params today now cache cd =
      (Except.ok (normalizeSingle d),
       cacheSet cache (buildCacheKey sport params) ⟨normalizeSingle d, now⟩,
       [Call.singleCall]) := by
  subst hd
  simp [fetchAfterMiss, Nat.not_le.mpr hsmall]

lemma fetchAfterMiss_log_head (single : UpResult) (byDate : Int → UpResult)
    (sport : String) (params : Params) (today : Int) (now : Nat)
    (cache : Cache (List Rec)) (cd : Option (Entry (List Rec))) :
    ∃ rest, (fetchAfterMiss single byDate sport params today now cache cd).2.2 =
      Call.singleCall :: rest := by
  unfold fetchAfterMiss
  cases single with
  | ok d =>
    by_cases h : MAX_LIMIT ≤ (normalizeSingle d).length
    · simp only [h, if_true]
      exact ⟨_, rfl⟩
    · simp only [h, if_false]
      exact ⟨[], rfl⟩
  | err e =>
    by_cases h : (e.status == some 400 || e.status == some 500) = true
    · simp only [h, if_true]
      exact ⟨_, rfl⟩
    · simp only [h, if_false]
      cases cd with
      | some ce => exact ⟨[], rfl⟩
      | none => exact ⟨[], rfl⟩

/-! ### C5 -/

/-- C5: the freshness check used on lookup holds exactly when the entry's
age `now - timestamp` is strictly below the TTL; at age = TTL the entry is
stale, and an entry at least TTL old is never fresh.  On lookup, a fresh
entry is served with zero upstream requests, and a stale entry always
leads to an upstream request. -/
theorem c5_isFresh_boundary :
    (∀ (ts age ttl : Nat) (xs : List Rec),
        isFresh (ts + age) ⟨xs, ts⟩ ttl = true ↔ age < ttl)
    ∧ (∀ (ts ttl : Nat) (xs : List Rec), isFresh (ts + ttl) ⟨xs, ts⟩ ttl = false)
    ∧ (∀ (now ts ttl : Nat) (xs : List Rec), ts + ttl ≤ now →
        isFresh now ⟨xs, ts⟩ ttl = false)
    ∧ (∀ (single : UpResult) (byDate : Int → UpResult) (sport : String)
        (params : Params) (today : Int) (now : Nat) (cache : Cache (List Rec))
        (e : Entry (List Rec)),
        cacheGet cache (buildCacheKey sport params) = some e →
        isFresh now e CACHE_TTL = true →
        fetchSportData single byDate sport params today now cache =
          (Except.ok e.data, cache, []))
    ∧ (∀ (single : UpResult) (byDate : Int → UpResult) (sport : String)
        (params : Params) (today : Int) (now : Nat) (cache : Cache (List Rec))
        (e : Entry (List Rec)),
        cacheGet cache (buildCacheKey sport params) = some e →
        isFresh now e CACHE_TTL = false →
        Call.singleCall ∈ (fetchSportData single byDate sport params today now cache).2.2) := by
  refine ⟨?_, ?_, ?_, ?_, ?_⟩
  · intro ts age ttl xs
    simp [isFresh]
  · intro ts ttl xs
    simp [isFresh]
  · intro now ts ttl xs h
    simp only [isFresh, decide_eq_false_iff_not, not_lt]
    omega
  · intro single byDate sport params today now cache e hget hfresh
    exact fetchSportData_fresh single byDate sport params today now cache e hget hfresh
  · intro single byDate sport params today now cache e hget hstale
    rw [fetchSportData_stale single byDate sport params today now cache e hget hstale]
    obtain ⟨rest, h⟩ :=
      fetchAfterMiss_log_head single byDate sport params today now cache (some e)
    rw [h]
    exact List.mem_cons_self _ _

/-- Witness for `c5_isFresh_boundary` at concrete inputs: TTL-boundary
staleness and a fresh-hit served from the cache with no upstream request. -/
theorem c5_isFresh_boundary_witness :
    isFresh (100 + CACHE_TTL) ⟨[Rec.item 1], 100⟩ CACHE_TTL = false
    ∧ fetchSportData (UpResult.ok JData.nul) (fun _ => UpResult.ok JData.nul)
        "football" [] 0 50 [(buildCacheKey "football" [], ⟨[Rec.item 1], 20⟩)] =
      (Except.ok [Rec.item 1],
       [(buildCacheKey "football" [], ⟨[Rec.item 1], 20⟩)], []) :=
  ⟨c5_isFresh_boundary.2.1 100 CACHE_TTL [Rec.item 1],
   c5_isFresh_boundary.2.2.2.1 (UpResult.ok JData.nul) (fun _ => UpResult.ok JData.nul)
     "football" [] 0 50 [(buildCacheKey "football" [], ⟨[Rec.item 1], 20⟩)]
     ⟨[Rec.item 1], 20⟩ (by simp [cacheGet]) (by decide)⟩

/-! ### C9 -/

/-- C9: `fetchDataByDate` never raises: for every oracle it returns the
(possibly empty) concatenation of the successful dates' records, issuing
exactly one request per date of the window, and unconditionally stores that
payload under the computed key with a fresh timestamp.  When every date
fails the payload is `[]`, and a `fetchSportData` within the TTL window
then answers `[]` from the cache with zero upstream requests — the outage
is masked. -/
theorem c9_fetchDataByDate_never_fails :
    (∀ (byDate : Int → UpResult) (sport : String) (params : Params)
        (today : Int) (now : Nat) (cache : Cache (List Rec)),
        fetchDataByDate byDate sport params today now cache =
          (dateConcat byDate today,
           cacheSet cache (buildCacheKey sport params) ⟨dateConcat byDate today, now⟩,
           (getDateRange today).map Call.dateCall))
    ∧ (∀ (byDate : Int → UpResult) (today : Int),
        (∀ d : Int, ∃ e, byDate d = UpResult.err e) →
        dateConcat byDate today = [])
    ∧ (∀ (byDate : Int → UpResult) (sport : String) (params : Params)
        (today : Int) (now : Nat) (cache : Cache (List Rec))
        (single₂ : UpResult) (byDate₂ : Int → UpResult) (today₂ : Int) (now₂ : Nat),
        (∀ d : Int, ∃ e, byDate d = UpResult.err e) →
        now₂ - now < CACHE_TTL →
        fetchSportData single₂ byDate₂ sport params today₂ now₂
            (fetchDataByDate byDate sport params today now cache).2.1 =
          (Except.ok [],
           (fetchDataByDate byDate sport params today now cache).2.1, [])) := by
  have hconcat : ∀ (byDate : Int → UpResult) (today : Int),
      (∀ d : Int, ∃ e, byDate d = UpResult.err e) → dateConcat byDate today = [] := by
    intro byDate today h
    unfold dateConcat
    rw [List.flatten_eq_nil_iff]
    intro l hl
    obtain ⟨d, _, hd⟩ := List.mem_map.mp hl
    obtain ⟨e, he⟩ := h d
    rw [he] at hd
    exact hd.symm
  refine ⟨fetchDataByDate_eq, hconcat, ?_⟩
  intro byDate sport params today now cache single₂ byDate₂ today₂ now₂ hfail httl
  rw [fetchDataByDate_eq]
  have hget :
      cacheGet (cacheSet cache (buildCacheKey sport params) ⟨dateConcat byDate today, now⟩)
        (buildCacheKey sport params) = some ⟨dateConcat byDate today, now⟩ :=
    cacheGet_cacheSet_self _ _ _
  have heq := fetchSportData_fresh single₂ byDate₂ sport params today₂ now₂ _ _ hget
    (by simp [isFresh, httl])
  rw [heq]
  simp [hconcat byDate today hfail]

/-- Witness for `c9_fetchDataByDate_never_fails`: a total outage (every
date failing) yields the empty payload, and a follow-up fetch inside the
TTL window is served that empty payload from the cache with zero upstream
requests. -/
theorem c9_fetchDataByDate_never_fails_witness :
    fetchSportData (UpResult.ok JData.nul) (fun _ => UpResult.ok JData.nul)
        "football" [] 0 500
        (fetchDataByDate (fun _ => UpResult.err ⟨none, 0⟩) "football" [] 0 0 []).2.1 =
      (Except.ok [],
       (fetchDataByDate (fun _ => UpResult.err ⟨none, 0⟩) "football" [] 0 0 []).2.1, []) :=
  c9_fetchDataByDate_never_fails.2.2 (fun _ => UpResult.err ⟨none, 0⟩) "football" [] 0 0 []
    (UpResult.ok JData.nul) (fun _ => UpResult.ok JData.nul) 0 500
    (fun _ => ⟨⟨none, 0⟩, rfl⟩) (by decide)

/-! ### C1 -/

/-- C1: with no fresh cache entry, a single upstream call whose normalized
count reaches `MAX_LIMIT` makes the coordinator fall back by date: the call
log is the single call followed by exactly one call per date of the 7-day
window centered on today, in date order, and the result is the
concatenation of the successful dates' records (failed dates are skipped),
which is also stored in the cache. -/
theorem c1_fallback_on_truncation
    (single : UpResult) (byDate : Int → UpResult) (sport : String) (params : Params)
    (today : Int) (now : Nat) (cache : Cache (List Rec)) (d : JData)
    (hmiss : ∀ e, cacheGet cache (buildCacheKey sport params) = some e →
        isFresh now e CACHE_TTL = false)
    (hd : single = UpResult.ok d)
    (htrunc : MAX_LIMIT ≤ (normalizeSingle d).length) :
    fetchSportData single byDate sport params today now cache =
      (Except.ok (dateConcat byDate today),
       cacheSet cache (buildCacheKey sport params) ⟨dateConcat byDate today, now⟩,
       Call.singleCall :: (getDateRange today).map Call.dateCall)
    ∧ getDateRange today = [today - 3, today - 2, today - 1, today,
        today + 1, today + 2, today + 3] := by
  refine ⟨?_, getDateRange_seven today⟩
  rw [fetchSportData_miss single byDate sport params today now cache hmiss]
  exact fetchAfterMiss_trunc single byDate sport params today now cache _ d hd htrunc

/-- The truncated single response used in `c1_fallback_on_truncation_witness`:
100 records. -/
def c1single : UpResult := UpResult.ok (JData.arr (List.replicate 100 (Rec.item 0)))

/-- The per-date oracle used in `c1_fallback_on_truncation_witness`: the
two dates below `-1` fail, the remaining five dates each return one
record. -/
def c1bd : Int → UpResult := fun d =>
  if d < (-1 : Int) then UpResult.err ⟨some 503, 1⟩
  else UpResult.ok (JData.arr [Rec.item 5])

/-- Witness for `c1_fallback_on_truncation`: 2 of the 7 per-date calls
fail and the result still holds the 5 successful dates' records. -/
theorem c1_fallback_on_truncation_witness :
    fetchSportData c1single c1bd "football" [] 0 1000 [] =
      (Except.ok (dateConcat c1bd 0),
       cacheSet [] (buildCacheKey "football" []) ⟨dateConcat c1bd 0, 1000⟩,
       Call.singleCall :: (getDateRange 0).map Call.dateCall)
    ∧ dateConcat c1bd 0 =
      [Rec.item 5, Rec.item 5, Rec.item 5, Rec.item 5, Rec.item 5] :=
  ⟨(c1_fallback_on_truncation c1single c1bd "football" [] 0 1000 []
      (JData.arr (List.replicate 100 (Rec.item 0)))
      (by intro e h; simp [cacheGet] at h) rfl (by decide)).1,
   by decide⟩

/-! ### C6 -/

lemma lookup_eq_of_perm {l₁ l₂ : Params} (p : l₁.Perm l₂) :
    (l₁.map Prod.fst).Nodup → ∀ k, l₁.lookup k = l₂.lookup k := by
  induction p with
  | nil => intro _ k; rfl
  | cons x t ih =>
    intro nd k
    obtain ⟨x1, x2⟩ := x
    rw [List.lookup_cons, List.lookup_cons]
    cases h : k == x1 with
    | true => rfl
    | false =>
      simp only [List.map_cons, List.nodup_cons] at nd
      exact ih nd.2 k
  | swap x y l =>
    intro nd k
    obtain ⟨x1, x2⟩ := x
    obtain ⟨y1, y2⟩ := y
    simp only [List.map_cons, List.nodup_cons, List.mem_cons] at nd
    rw [List.lookup_cons, List.lookup_cons, List.lookup_cons, List.lookup_cons]
    cases hx : k == x1 with
    | true =>
      cases hy : k == y1 with
      | true =>
        exfalso
        exact nd.1 (Or.inl ((beq_iff_eq.mp hy).symm.trans (beq_iff_eq.mp hx)))
      | false => rfl
    | false =>
      cases hy : k == y1 with
      | true => rfl
      | false => rfl
  | trans p₁ p₂ ih₁ ih₂ =>
    intro nd k
    rw [ih₁ nd k, ih₂ ((p₁.map Prod.fst).nodup_iff.mp nd) k]

/-- C6: `buildCacheKey` is a pure function of `(sport, params)` (it is a
Lean function of exactly those arguments, with no other state), and because
it sorts parameter names before encoding, two parameter objects holding the
same bindings in different insertion orders yield the same key. -/
theorem c6_buildCacheKey_order_independent (sport : String) (p₁ p₂ : Params)
    (hperm : p₁.Perm p₂) (hnd : (p₁.map Prod.fst).Nodup) :
    buildCacheKey sport p₁ = buildCacheKey sport p₂ := by
  unfold buildCacheKey
  have hkeys : List.insertionSort (fun a b : String => a ≤ b) (p₁.map Prod.fst)
      = List.insertionSort (fun a b : String => a ≤ b) (p₂.map Prod.fst) := by
    apply @List.eq_of_perm_of_sorted String (fun a b : String => a ≤ b) inferInstance _ _
      ((List.perm_insertionSort _ _).trans
        ((hperm.map Prod.fst).trans (List.perm_insertionSort _ _).symm))
    · exact List.sorted_insertionSort _ _
    · exact List.sorted_insertionSort _ _
  have hlook : ∀ k, p₁.lookup k = p₂.lookup k := lookup_eq_of_perm hperm hnd
  rw [hkeys]
  simp only [hlook]

/-- Witness for `c6_buildCacheKey_order_independent`: the spec's concrete
instance, `buildCacheKey("football", {b:2,a:1}) = buildCacheKey("football",
{a:1,b:2})`. -/
theorem c6_buildCacheKey_order_independent_witness :
    buildCacheKey "football" [("b", JVal.num 2), ("a", JVal.num 1)] =
      buildCacheKey "football" [("a", JVal.num 1), ("b", JVal.num 2)] :=
  c6_buildCacheKey_order_independent "football" _ _
    (List.Perm.swap ("a", JVal.num 1) ("b", JVal.num 2) []) (by decide)

/-! ### C2 -/

lemma fetchAfterMiss_err_fallback (single : UpResult) (byDate : Int → UpResult)
    (sport : String) (params : Params) (today : Int) (now : Nat)
    (cache : Cache (List Rec)) (cd : Option (Entry (List Rec))) (e : UpError)
    (hd : single = UpResult.err e)
    (hst : e.status = some 400 ∨ e.status = some 500) :
    fetchAfterMiss single byDate sport params today now cache cd =
      (Except.ok (dateConcat byDate today),
       cacheSet cache (buildCacheKey sport params) ⟨dateConcat byDate today, now⟩,
       Call.singleCall :: (getDateRange today).map Call.dateCall) := by
  subst hd
  rcases hst with h | h <;> simp [fetchAfterMiss, h, fetchDataByDate_eq]

lemma status_cond_false {e : UpError}
    (hst : ¬(e.status = some 400 ∨ e.status = some 500)) :
    (e.status == some 400 || e.status == some 500) = false := by
  push_neg at hst
  simp only [Bool.or_eq_false_iff, beq_eq_false_iff_ne, ne_eq]
  exact ⟨hst.1, hst.2⟩

lemma fetchAfterMiss_err_stale (single : UpResult) (byDate : Int → UpResult)
    (sport : String) (params : Params) (today : Int) (now : Nat)
    (cache : Cache (List Rec)) (ce : Entry (List Rec)) (e : UpError)
    (hd : single = UpResult.err e)
    (hst : ¬(e.status = some 400 ∨ e.status = some 500)) :
    fetchAfterMiss single byDate sport params today now cache (some ce) =
      (Except.ok ce.data, cache, [Call.singleCall]) := by
  subst hd
  simp [fetchAfterMiss, status_cond_false hst]

lemma fetchAfterMiss_err_throw (single : UpResult) (byDate : Int → UpResult)
    (sport : String) (params : Params) (today : Int) (now : Nat)
    (cache : Cache (List Rec)) (e : UpError)
    (hd : single = UpResult.err e)
    (hst : ¬(e.status = some 400 ∨ e.status = some 500)) :
    fetchAfterMiss single byDate sport params today now cache none =
      (Except.error e, cache, [Call.singleCall]) := by
  subst hd
  simp [fetchAfterMiss, status_cond_false hst]

/-- Counterexample to C2: a failure with HTTP status 404 (squarely in the
4xx class) and a stale cache entry present.  The claim says the coordinator
retries via fallback-by-date; the code only does that for statuses 400 and
500, so here it returns the stale entry's payload after the one single
call, issuing no per-date call at all. -/
theorem c2_counterexample :
    fetchSportData (UpResult.err ⟨some 404, 5⟩)
        (fun _ => UpResult.ok (JData.arr [Rec.item 42])) "football" [] 0 100000
        [(buildCacheKey "football" [], ⟨[Rec.item 9], 0⟩)] =
      (Except.ok [Rec.item 9],
       [(buildCacheKey "football" [], ⟨[Rec.item 9], 0⟩)],
       [Call.singleCall]) := by
  rfl

/-- C2 as amended: the fallback-by-date retry happens exactly for statuses
400 and 500 (not the whole 4xx/5xx class); for any other failure a cache
entry — even a stale one — is answered with its payload, and with no cache
entry the original failure is propagated. -/
theorem c2_amended (single : UpResult) (byDate : Int → UpResult) (sport : String)
    (params : Params) (today : Int) (now : Nat) (cache : Cache (List Rec))
    (e : UpError)
    (hmiss : ∀ en, cacheGet cache (buildCacheKey sport params) = some en →
        isFresh now en CACHE_TTL = false)
    (hd : single = UpResult.err e) :
    (e.status = some 400 ∨ e.status = some 500 →
      fetchSportData single byDate sport params today now cache =
        (Except.ok (dateConcat byDate today),
         cacheSet cache (buildCacheKey sport params) ⟨dateConcat byDate today, now⟩,
         Call.singleCall :: (getDateRange today).map Call.dateCall))
    ∧ (¬(e.status = some 400 ∨ e.status = some 500) →
      (∀ ce, cacheGet cache (buildCacheKey sport params) = some ce →
        fetchSportData single byDate sport params today now cache =
          (Except.ok ce.data, cache, [Call.singleCall]))
      ∧ (cacheGet cache (buildCacheKey sport params) = none →
        fetchSportData single byDate sport params today now cache =
          (Except.error e, cache, [Call.singleCall]))) := by
  constructor
  · intro hst
    rw [fetchSportData_miss single byDate sport params today now cache hmiss]
    exact fetchAfterMiss_err_fallback single byDate sport params today now cache _ e hd hst
  · intro hst
    constructor
    · intro ce hget
      rw [fetchSportData_stale single byDate sport params today now cache ce hget
        (hmiss ce hget)]
      exact fetchAfterMiss_err_stale single byDate sport params today now cache ce e hd hst
    · intro hget
      rw [fetchSportData_nocache single byDate sport params today now cache hget]
      exact fetchAfterMiss_err_throw single byDate sport params today now cache e hd hst

/-- The all-dates-succeed oracle used in the C2 and C4 witnesses. -/
def bd42 : Int → UpResult := fun _ => UpResult.ok (JData.arr [Rec.item 42])

/-- Witness for `c2_amended`: a status-500 failure on an empty cache falls
back by date. -/
theorem c2_amended_witness :
    fetchSportData (UpResult.err ⟨some 500, 2⟩) bd42 "football" [] 0 1000 [] =
      (Except.ok (dateConcat bd42 0),
       cacheSet [] (buildCacheKey "football" []) ⟨dateConcat bd42 0, 1000⟩,
       Call.singleCall :: (getDateRange 0).map Call.dateCall) :=
  (c2_amended (UpResult.err ⟨some 500, 2⟩) bd42 "football" [] 0 1000 [] ⟨some 500, 2⟩
    (by intro en h; simp [cacheGet] at h) rfl).1 (Or.inr rfl)

/-! ### C4 -/

/-- The truncated (100-record) single response used in the C4
counterexample. -/
def c4single : UpResult := UpResult.ok (JData.arr (List.replicate 100 (Rec.item 1)))

/-- Counterexample to C4: two `fetchSportData` calls for the same topic and
parameters, the second within TTL of the entry written by the first, issue
8 upstream calls in total — not at most one — because the first call's
result count reaches `MAX_LIMIT` and triggers fallback-by-date (1 single
call + 7 per-date calls).  The second call still issues 0. -/
theorem c4_counterexample :
    (fetchSportData c4single bd42 "football" [] 0 0 []).2.2.length +
      (fetchSportData c4single bd42 "football" [] 0 1000
        (fetchSportData c4single bd42 "football" [] 0 0 []).2.1).2.2.length = 8
    ∧ ¬((fetchSportData c4single bd42 "football" [] 0 0 []).2.2.length +
      (fetchSportData c4single bd42 "football" [] 0 1000
        (fetchSportData c4single bd42 "football" [] 0 0 []).2.1).2.2.length ≤ 1) := by
  decide

/-- C4 as amended: the second call is answered from the cache and issues
zero upstream calls; the total equals the first call's count — at most one
when the first call's single response stays below `MAX_LIMIT`, and
`1 + DAYS_RANGE` when it reaches `MAX_LIMIT` (fallback-by-date). -/
theorem c4_amended (single : UpResult) (byDate : Int → UpResult) (sport : String)
    (params : Params) (today : Int) (now₁ now₂ : Nat) (cache : Cache (List Rec))
    (d : JData) (single₂ : UpResult) (byDate₂ : Int → UpResult) (today₂ : Int)
    (hmiss : ∀ e, cacheGet cache (buildCacheKey sport params) = some e →
        isFresh now₁ e CACHE_TTL = false)
    (hd : single = UpResult.ok d)
    (httl : now₂ - now₁ < CACHE_TTL) :
    ((normalizeSingle d).length < MAX_LIMIT →
      fetchSportData single₂ byDate₂ sport params today₂ now₂
          (fetchSportData single byDate sport params today now₁ cache).2.1 =
        (Except.ok (normalizeSingle d),
         (fetchSportData single byDate sport params today now₁ cache).2.1, [])
      ∧ (fetchSportData single byDate sport params today now₁ cache).2.2.length +
        (fetchSportData single₂ byDate₂ sport params today₂ now₂
          (fetchSportData single byDate sport params today now₁ cache).2.1).2.2.length
        ≤ 1)
    ∧ (MAX_LIMIT ≤ (normalizeSingle d).length →
      fetchSportData single₂ byDate₂ sport params today₂ now₂
          (fetchSportData single byDate sport params today now₁ cache).2.1 =
        (Except.ok (dateConcat byDate today),
         (fetchSportData single byDate sport params today now₁ cache).2.1, [])
      ∧ (fetchSportData single byDate sport params today now₁ cache).2.2.length +
        (fetchSportData single₂ byDate₂ sport params today₂ now₂
          (fetchSportData single byDate sport params today now₁ cache).2.1).2.2.length
        = 1 + DAYS_RANGE) := by
  have hrun := fetchSportData_miss single byDate sport params today now₁ cache hmiss
  constructor
  · intro hsmall
    have h₁ : fetchSportData single byDate sport params today now₁ cache =
        (Except.ok (normalizeSingle d),
         cacheSet cache (buildCacheKey sport params) ⟨normalizeSingle d, now₁⟩,
         [Call.singleCall]) := by
      rw [hrun]
      exact fetchAfterMiss_small single byDate sport params today now₁ cache _ d hd hsmall
    have h₂ := fetchSportData_fresh single₂ byDate₂ sport params today₂ now₂
      (cacheSet cache (buildCacheKey sport params) ⟨normalizeSingle d, now₁⟩)
      ⟨normalizeSingle d, now₁⟩ (cacheGet_cacheSet_self _ _ _) (by simp [isFresh, httl])
    rw [h₁]
    simp only [h₂]
    simp
  · intro htrunc
    have h₁ : fetchSportData single byDate sport params today now₁ cache =
        (Except.ok (dateConcat byDate today),
         cacheSet cache (buildCacheKey sport params) ⟨dateConcat byDate today, now₁⟩,
         Call.singleCall :: (getDateRange today).map Call.dateCall) := by
      rw [hrun]
      exact fetchAfterMiss_trunc single byDate sport params today now₁ cache _ d hd htrunc
    have h₂ := fetchSportData_fresh single₂ byDate₂ sport params today₂ now₂
      (cacheSet cache (buildCacheKey sport params) ⟨dateConcat byDate today, now₁⟩)
      ⟨dateConcat byDate today, now₁⟩ (cacheGet_cacheSet_self _ _ _)
      (by simp [isFresh, httl])
    rw [h₁]
    simp only [h₂]
    simp only [List.length_cons, List.length_map, List.length_nil, getDateRange_length]
    simp [Nat.add_comm]

/-- Witness for `c4_amended`: a small (1-record) first response, a second
call 1 second later — one upstream call in total and a cache answer for the
second call. -/
theorem c4_amended_witness :
    fetchSportData (UpResult.ok JData.nul) bd42 "football" [] 0 1000
        (fetchSportData (UpResult.ok (JData.arr [Rec.item 3])) bd42
          "football" [] 0 0 []).2.1 =
      (Except.ok [Rec.item 3],
       (fetchSportData (UpResult.ok (JData.arr [Rec.item 3])) bd42
         "football" [] 0 0 []).2.1, []) :=
  ((c4_amended (UpResult.ok (JData.arr [Rec.item 3])) bd42 "football" [] 0 0 1000 []
      (JData.arr [Rec.item 3]) (UpResult.ok JData.nul) bd42 0
      (by intro e h; simp [cacheGet] at h) rfl (by decide)).1 (by decide)).1

/-! ### C3 -/

/-- Counterexample to C3 for the part_000 scheduler: a tick (`updateData`)
firing for a topic in the Active state (`timerArmed = true`) with zero
subscribers still issues an upstream call (the call log is `[singleCall]`,
not `[]`) and leaves the timer armed — `updateData` never consults the
subscriber set; only the inactivity sweep can disarm it. -/
theorem c3_counterexample :
    (tick (UpResult.ok (JData.arr [Rec.item 1])) bd42 "football" 0 1000
        ⟨[], true, 1, some 0⟩ []).calls = [Call.singleCall]
    ∧ (tick (UpResult.ok (JData.arr [Rec.item 1])) bd42 "football" 0 1000
        ⟨[], true, 1, some 0⟩ []).st.timerArmed = true := by
  constructor <;> rfl

end Sport

namespace IndexJs

open Sport

/-- C3 as amended: in the index.js scheduler a timer tick (`updateMatches`)
that fires while the topic's subscriber count is zero issues zero upstream
calls and disarms its own timer (clearing the interval and `isActive`); in
the part_000 scheduler the tick fetches regardless of the subscriber count
and only the inactivity sweep disarms it. -/
theorem c3_tick_zero_subscribers_disarms (mresp : Nat → MResp)
    (dresp : Nat → UpResult) (sport today : String) (now : Nat)
    (matchSubs : List Nat) (st : IState) (mc : Cache (List Rec)) (dc : Cache JData)
    (husers : st.users = []) (harmed : st.timerArmed = true) :
    updateMatches mresp dresp sport today now matchSubs st mc dc =
      ⟨{ st with
          timerArmed := false
          timerCount := st.timerCount - 1
          isActive := false }, mc, dc, 0, 0, [], false⟩ := by
  unfold updateMatches
  simp [husers, harmed]

/-- Witness for `c3_tick_zero_subscribers_disarms` at a concrete Active
state with no subscribers. -/
theorem c3_tick_zero_subscribers_disarms_witness :
    updateMatches (fun _ => MResp.err ⟨none, 0⟩) (fun _ => UpResult.err ⟨none, 0⟩)
        "football" "d" 0 [] ⟨[], true, 1, some 0, true⟩ [] [] =
      ⟨⟨[], false, 0, some 0, false⟩, [], [], 0, 0, [], false⟩ :=
  c3_tick_zero_subscribers_disarms (fun _ => MResp.err ⟨none, 0⟩)
    (fun _ => UpResult.err ⟨none, 0⟩) "football" "d" 0 []
    ⟨[], true, 1, some 0, true⟩ [] [] rfl rfl

/-! ### C10 -/

/-- C10: `fetchMatchDetails` never propagates an upstream failure: on any
upstream error it answers the cached entry's data whenever an entry exists
for the key (fresh or stale), and `null` when none exists; the match-details
endpoint then answers such a failure with 404 (`Match details not found`),
not 500. -/
theorem c10_details_errors_never_propagate :
    (∀ (e : UpError) (sport : String) (matchId : Nat) (now : Nat)
        (dc : Cache JData) (ce : Entry JData),
        cacheGet dc (sport ++ "-" ++ toString matchId) = some ce →
        (fetchMatchDetails (UpResult.err e) sport matchId now dc).1 = ce.data
        ∧ (fetchMatchDetails (UpResult.err e) sport matchId now dc).2.1 = dc)
    ∧ (∀ (e : UpError) (sport : String) (matchId : Nat) (now : Nat)
        (dc : Cache JData),
        cacheGet dc (sport ++ "-" ++ toString matchId) = none →
        fetchMatchDetails (UpResult.err e) sport matchId now dc = (JData.nul, dc, 1))
    ∧ (∀ (e : UpError) (sport : String) (matchId : Nat) (now : Nat)
        (dc : Cache JData),
        cacheGet dc (sport ++ "-" ++ toString matchId) = none →
        (matchDetailsEndpoint (UpResult.err e) sport matchId now dc).1 = 404) := by
  have hmiss : ∀ (e : UpError) (sport : String) (matchId : Nat) (now : Nat)
      (dc : Cache JData),
      cacheGet dc (sport ++ "-" ++ toString matchId) = none →
      fetchMatchDetails (UpResult.err e) sport matchId now dc = (JData.nul, dc, 1) := by
    intro e sport matchId now dc hget
    simp only [fetchMatchDetails, fetchMatchDetailsMiss, hget]
  refine ⟨?_, hmiss, ?_⟩
  · intro e sport matchId now dc ce hget
    simp only [fetchMatchDetails, hget]
    by_cases hfr : isFresh now ce CACHE_TTL = true
    · simp [hfr]
    · have hfr' : isFresh now ce CACHE_TTL = false := by
        revert hfr; cases isFresh now ce CACHE_TTL <;> simp
      simp only [hfr', Bool.false_eq_true, if_false, fetchMatchDetailsMiss, hget]
      simp
  · intro e sport matchId now dc hget
    simp only [matchDetailsEndpoint, hmiss e sport matchId now dc hget]
    rfl

/-- Witness for `c10_details_errors_never_propagate`: on an empty details
cache an upstream failure yields `null` from `fetchMatchDetails` and a 404
from the endpoint. -/
theorem c10_details_errors_never_propagate_witness :
    fetchMatchDetails (UpResult.err ⟨some 500, 9⟩) "football" 12 0 [] =
      (JData.nul, [], 1)
    ∧ (matchDetailsEndpoint (UpResult.err ⟨some 500, 9⟩) "football" 12 0 []).1 = 404 :=
  ⟨c10_details_errors_never_propagate.2.1 ⟨some 500, 9⟩ "football" 12 0 [] rfl,
   c10_details_errors_never_propagate.2.2 ⟨some 500, 9⟩ "football" 12 0 [] rfl⟩

end IndexJs

/-! ### C7 / C8 -/

namespace Sport

lemma timerInv_arm {c : Nat} (h : TimerInv false c) : TimerInv true (c + 1) := by
  obtain ⟨h1, h2⟩ := h
  have h2' : c ≠ 1 := fun hc => by simpa using h2.mpr hc
  have hc0 : c = 0 := by omega
  subst hc0
  exact ⟨le_refl 1, by simp⟩

lemma timerInv_disarm {c : Nat} (h : TimerInv true c) : TimerInv false (c - 1) := by
  obtain ⟨h1, h2⟩ := h
  have hc : c = 1 := h2.mp rfl
  subst hc
  exact ⟨by omega, by simp⟩

lemma bool_not_true {b : Bool} (h : ¬b = true) : b = false := by
  revert h; cases b <;> simp

lemma updateData_fields (single : UpResult) (byDate : Int → UpResult) (sport : String)
    (today : Int) (now : Nat) (st : PState) (cache : Cache (List Rec)) :
    (updateData single byDate sport today now st cache).st.users = st.users
    ∧ (updateData single byDate sport today now st cache).st.timerArmed = st.timerArmed
    ∧ (updateData single byDate sport today now st cache).st.timerCount = st.timerCount
    ∧ (updateData single byDate sport today now st cache).fetchRuns = 1
    ∧ (updateData single byDate sport today now st cache).timersCreated = 0 := by
  unfold updateData
  rcases hr : fetchSportData single byDate sport [] today now cache with ⟨res, c, log⟩
  cases res <;> simp

lemma startSportUpdates_armed (single : UpResult) (byDate : Int → UpResult)
    (sport : String) (today : Int) (now : Nat) (st : PState) (cache : Cache (List Rec))
    (h : st.timerArmed = true) :
    startSportUpdates single byDate sport today now st cache =
      ⟨st, cache, [], 0, 0, false⟩ := by
  unfold startSportUpdates
  simp [h]

lemma startSportUpdates_fields_not_armed (single : UpResult) (byDate : Int → UpResult)
    (sport : String) (today : Int) (now : Nat) (st : PState) (cache : Cache (List Rec))
    (ha : st.timerArmed = false) :
    (startSportUpdates single byDate sport today now st cache).st.timerArmed = true
    ∧ (startSportUpdates single byDate sport today now st cache).st.users = st.users
    ∧ (startSportUpdates single byDate sport today now st cache).timersCreated = 1
    ∧ (startSportUpdates single byDate sport today now st cache).fetchRuns = 1 := by
  have hu := updateData_fields single byDate sport today now st cache
  simp only [startSportUpdates, ha, Bool.false_eq_true, if_false]
  exact ⟨trivial, hu.1, trivial, hu.2.2.2.1⟩

lemma timerInv_startSportUpdates (single : UpResult) (byDate : Int → UpResult)
    (sport : String) (today : Int) (now : Nat) (st : PState) (cache : Cache (List Rec))
    (h : TimerInv st.timerArmed st.timerCount) :
    TimerInv (startSportUpdates single byDate sport today now st cache).st.timerArmed
      (startSportUpdates single byDate sport today now st cache).st.timerCount := by
  by_cases ha : st.timerArmed = true
  · rw [startSportUpdates_armed single byDate sport today now st cache ha]
    exact h
  · have ha' := bool_not_true ha
    simp only [startSportUpdates, ha', Bool.false_eq_true, if_false]
    have hu := updateData_fields single byDate sport today now st cache
    show TimerInv true ((updateData single byDate sport today now st cache).st.timerCount + 1)
    rw [hu.2.2.1]
    exact timerInv_arm (ha' ▸ h)

lemma timerInv_subscribeHandler (single : UpResult) (byDate : Int → UpResult)
    (sport : String) (today : Int) (now : Nat) (sid : Nat) (st : PState)
    (cache : Cache (List Rec))
    (h : TimerInv st.timerArmed st.timerCount) :
    TimerInv (subscribeHandler single byDate sport today now sid st cache).st.timerArmed
      (subscribeHandler single byDate sport today now sid st cache).st.timerCount := by
  simp only [subscribeHandler]
  by_cases h1 : (addUser st.users sid).length = 1
  · simp only [h1, if_true]
    exact timerInv_startSportUpdates single byDate sport today now
      { st with users := addUser st.users sid } cache h
  · simp only [h1, if_false]
    exact h

lemma timerInv_unsubscribeHandler (now : Nat) (sid : Nat) (st : PState)
    (h : TimerInv st.timerArmed st.timerCount) :
    TimerInv (unsubscribeHandler now sid st).timerArmed
      (unsubscribeHandler now sid st).timerCount := h

lemma timerInv_disconnectHandler (now : Nat) (sid : Nat) (st : PState)
    (h : TimerInv st.timerArmed st.timerCount) :
    TimerInv (disconnectHandler now sid st).timerArmed
      (disconnectHandler now sid st).timerCount := by
  unfold disconnectHandler
  split <;> exact h

lemma timerInv_tick (single : UpResult) (byDate : Int → UpResult) (sport : String)
    (today : Int) (now : Nat) (st : PState) (cache : Cache (List Rec))
    (h : TimerInv st.timerArmed st.timerCount) :
    TimerInv (tick single byDate sport today now st cache).st.timerArmed
      (tick single byDate sport today now st cache).st.timerCount := by
  unfold tick
  have hu := updateData_fields single byDate sport today now st cache
  rw [hu.2.1, hu.2.2.1]
  exact h

lemma timerInv_stopSportUpdates (st : PState)
    (h : TimerInv st.timerArmed st.timerCount) :
    TimerInv (stopSportUpdates st).timerArmed (stopSportUpdates st).timerCount := by
  unfold stopSportUpdates
  by_cases ha : st.timerArmed = true
  · simp only [ha, if_true]
    exact timerInv_disarm (ha ▸ h)
  · have ha' := bool_not_true ha
    simp only [ha', Bool.false_eq_true, if_false]
    exact ha' ▸ h

lemma timerInv_sweep (now : Nat) (st : PState)
    (h : TimerInv st.timerArmed st.timerCount) :
    TimerInv (sweep now st).timerArmed (sweep now st).timerCount := by
  unfold sweep
  split
  · exact timerInv_stopSportUpdates st h
  · exact h

/-- C8: in part_000, subscribing to a topic that is Idle (no armed timer)
with an empty subscriber set runs exactly one immediate fetch-and-broadcast
(`updateData`) and arms exactly one recurring timer (Idle → Active);
subscribing while a timer is already armed (Active) runs no fetch, issues
no upstream call and creates no timer. -/
theorem c8_first_subscriber_one_fetch :
    (∀ (single : UpResult) (byDate : Int → UpResult) (sport : String) (today : Int)
        (now : Nat) (sid : Nat) (st : PState) (cache : Cache (List Rec)),
        st.users = [] → st.timerArmed = false →
        (subscribeHandler single byDate sport today now sid st cache).fetchRuns = 1
        ∧ (subscribeHandler single byDate sport today now sid st cache).timersCreated = 1
        ∧ (subscribeHandler single byDate sport today now sid st cache).st.timerArmed = true
        ∧ (subscribeHandler single byDate sport today now sid st cache).st.users = [sid])
    ∧ (∀ (single : UpResult) (byDate : Int → UpResult) (sport : String) (today : Int)
        (now : Nat) (sid : Nat) (st : PState) (cache : Cache (List Rec)),
        st.timerArmed = true →
        (subscribeHandler single byDate sport today now sid st cache).fetchRuns = 0
        ∧ (subscribeHandler single byDate sport today now sid st cache).calls = []
        ∧ (subscribeHandler single byDate sport today now sid st cache).timersCreated = 0) := by
  constructor
  · intro single byDate sport today now sid st cache hempty hidle
    have haddu : addUser st.users sid = [sid] := by simp [addUser, hempty]
    have hf := startSportUpdates_fields_not_armed single byDate sport today now
      { st with users := [sid] } cache hidle
    simp only [subscribeHandler, haddu, List.length_cons, List.length_nil]
    norm_num
    exact ⟨hf.2.2.2, hf.2.2.1, hf.1, hf.2.1⟩
  · intro single byDate sport today now sid st cache harmed
    simp only [subscribeHandler]
    by_cases h1 : (addUser st.users sid).length = 1
    · simp only [h1, if_true]
      rw [startSportUpdates_armed single byDate sport today now
        { st with users := addUser st.users sid } cache harmed]
      exact ⟨rfl, rfl, rfl⟩
    · simp only [h1, if_false]
      exact ⟨trivial, trivial, trivial⟩

/-- Witness for `c8_first_subscriber_one_fetch`: subscriber 7 joins an
idle, empty football topic; one fetch runs, one timer is armed.  A second
subscriber 8 then joins the Active topic; no fetch runs. -/
theorem c8_first_subscriber_one_fetch_witness :
    ((subscribeHandler (UpResult.ok (JData.arr [Rec.item 1])) bd42 "football" 0 0 7
        ⟨[], false, 0, none⟩ []).fetchRuns = 1
      ∧ (subscribeHandler (UpResult.ok (JData.arr [Rec.item 1])) bd42 "football" 0 0 7
        ⟨[], false, 0, none⟩ []).timersCreated = 1
      ∧ (subscribeHandler (UpResult.ok (JData.arr [Rec.item 1])) bd42 "football" 0 0 7
        ⟨[], false, 0, none⟩ []).st.timerArmed = true
      ∧ (subscribeHandler (UpResult.ok (JData.arr [Rec.item 1])) bd42 "football" 0 0 7
        ⟨[], false, 0, none⟩ []).st.users = [7])
    ∧ (subscribeHandler (UpResult.ok (JData.arr [Rec.item 1])) bd42 "football" 0 0 8
        ⟨[7], true, 1, none⟩ []).fetchRuns = 0 :=
  ⟨c8_first_subscriber_one_fetch.1 (UpResult.ok (JData.arr [Rec.item 1])) bd42
      "football" 0 0 7 ⟨[], false, 0, none⟩ [] rfl rfl,
   (c8_first_subscriber_one_fetch.2 (UpResult.ok (JData.arr [Rec.item 1])) bd42
      "football" 0 0 8 ⟨[7], true, 1, none⟩ [] rfl).1⟩

end Sport

namespace IndexJs

open Sport

lemma updateMatches_timer_fields (mresp : Nat → MResp) (dresp : Nat → UpResult)
    (sport today : String) (now : Nat) (matchSubs : List Nat) (st : IState)
    (mc : Cache (List Rec)) (dc : Cache JData)
    (ha : st.timerArmed = false) :
    (updateMatches mresp dresp sport today now matchSubs st mc dc).st.timerArmed = false
    ∧ (updateMatches mresp dresp sport today now matchSubs st mc dc).st.timerCount
      = st.timerCount := by
  unfold updateMatches
  by_cases hu : 0 < st.users.length
  · simp only [hu, if_true]
    rcases hf : fetchMatches mresp sport today "UTC" 100 3 now mc with ⟨res, mc', n⟩
    cases res <;> simp [ha]
  · simp only [hu, if_false]
    simp [ha]

lemma timerInv_updateMatches (mresp : Nat → MResp) (dresp : Nat → UpResult)
    (sport today : String) (now : Nat) (matchSubs : List Nat) (st : IState)
    (mc : Cache (List Rec)) (dc : Cache JData)
    (h : TimerInv st.timerArmed st.timerCount) :
    TimerInv (updateMatches mresp dresp sport today now matchSubs st mc dc).st.timerArmed
      (updateMatches mresp dresp sport today now matchSubs st mc dc).st.timerCount := by
  unfold updateMatches
  by_cases hu : 0 < st.users.length
  · simp only [hu, if_true]
    rcases hf : fetchMatches mresp sport today "UTC" 100 3 now mc with ⟨res, mc', n⟩
    cases res <;> exact h
  · simp only [hu, if_false]
    by_cases ha : st.timerArmed = true
    · simp only [ha, if_true]
      exact timerInv_disarm (ha ▸ h)
    · have ha' := bool_not_true ha
      simp only [ha', Bool.false_eq_true, if_false]
      exact ha' ▸ h

lemma startMatchUpdates_armed (mresp : Nat → MResp) (dresp : Nat → UpResult)
    (sport today : String) (now : Nat) (matchSubs : List Nat) (st : IState)
    (mc : Cache (List Rec)) (dc : Cache JData)
    (h : st.timerArmed = true) :
    startMatchUpdates mresp dresp sport today now matchSubs st mc dc =
      ⟨{ st with isActive := true }, mc, dc, 0, 0, [], false⟩ := by
  unfold startMatchUpdates
  simp [h]

lemma timerInv_startMatchUpdates (mresp : Nat → MResp) (dresp : Nat → UpResult)
    (sport today : String) (now : Nat) (matchSubs : List Nat) (st : IState)
    (mc : Cache (List Rec)) (dc : Cache JData)
    (h : TimerInv st.timerArmed st.timerCount) :
    TimerInv (startMatchUpdates mresp dresp sport today now matchSubs st mc dc).st.timerArmed
      (startMatchUpdates mresp dresp sport today now matchSubs st mc dc).st.timerCount := by
  obtain ⟨us, ta, tc, lu, ia⟩ := st
  by_cases ha : ta = true
  · subst ha
    rw [startMatchUpdates_armed mresp dresp sport today now matchSubs
      ⟨us, true, tc, lu, ia⟩ mc dc rfl]
    exact h
  · have ha' := bool_not_true ha
    subst ha'
    simp only [startMatchUpdates, Bool.false_eq_true, if_false]
    have hm := updateMatches_timer_fields mresp dresp sport today now matchSubs
      ⟨us, false, tc, lu, true⟩ mc dc rfl
    show TimerInv true
      ((updateMatches mresp dresp sport today now matchSubs
        ⟨us, false, tc, lu, true⟩ mc dc).st.timerCount + 1)
    rw [hm.2]
    exact timerInv_arm h

lemma timerInv_subscribeMatchesHandler (mresp : Nat → MResp) (dresp : Nat → UpResult)
    (sport today : String) (now : Nat) (matchSubs : List Nat) (sid : Nat) (st : IState)
    (mc : Cache (List Rec)) (dc : Cache JData)
    (h : TimerInv st.timerArmed st.timerCount) :
    TimerInv (subscribeMatchesHandler mresp dresp sport today now matchSubs sid st mc dc).st.timerArmed
      (subscribeMatchesHandler mresp dresp sport today now matchSubs sid st mc dc).st.timerCount := by
  simp only [subscribeMatchesHandler]
  by_cases hact : st.isActive = true
  · simp only [hact, if_true]
    exact h
  · have hact' := bool_not_true hact
    simp only [hact', Bool.false_eq_true, if_false]
    exact timerInv_startMatchUpdates mresp dresp sport today now matchSubs
      { st with users := addUser st.users sid } mc dc h

lemma timerInv_unsubscribeMatchesHandler (now : Nat) (sid : Nat) (st : IState)
    (h : TimerInv st.timerArmed st.timerCount) :
    TimerInv (unsubscribeMatchesHandler now sid st).timerArmed
      (unsubscribeMatchesHandler now sid st).timerCount := by
  simp only [unsubscribeMatchesHandler]
  split <;> exact h

lemma timerInv_disconnectMatchesHandler (now : Nat) (sid : Nat) (st : IState)
    (h : TimerInv st.timerArmed st.timerCount) :
    TimerInv (disconnectMatchesHandler now sid st).timerArmed
      (disconnectMatchesHandler now sid st).timerCount := by
  simp only [disconnectMatchesHandler]
  split
  · split <;> exact h
  · exact h

lemma timerInv_cleanupInactiveSubscriptions (now : Nat) (st : IState)
    (h : TimerInv st.timerArmed st.timerCount) :
    TimerInv (cleanupInactiveSubscriptions now st).timerArmed
      (cleanupInactiveSubscriptions now st).timerCount := by
  unfold cleanupInactiveSubscriptions
  split <;> exact h

end IndexJs

/-- C7: per topic, at most one recurring timer ever exists, in both
schedulers.  Starting while a timer handle exists is a no-op: no second
timer is created and no immediate fetch runs (part_000 returns everything
unchanged; index.js additionally sets `isActive`).  The one-timer invariant
`TimerInv` (live-timer count ≤ 1, and the stored handle reflects it) is
preserved by every subscribe, unsubscribe, disconnect, tick and sweep
operation of both schedulers. -/
theorem c7_one_timer_per_topic :
    (∀ (single : Sport.UpResult) (byDate : Int → Sport.UpResult) (sport : String)
        (today : Int) (now : Nat) (st : Sport.PState) (cache : Sport.Cache (List Sport.Rec)),
        st.timerArmed = true →
        Sport.startSportUpdates single byDate sport today now st cache =
          ⟨st, cache, [], 0, 0, false⟩)
    ∧ (∀ (mresp : Nat → IndexJs.MResp) (dresp : Nat → Sport.UpResult)
        (sport today : String) (now : Nat) (matchSubs : List Nat)
        (st : IndexJs.IState) (mc : Sport.Cache (List Sport.Rec))
        (dc : Sport.Cache Sport.JData),
        st.timerArmed = true →
        IndexJs.startMatchUpdates mresp dresp sport today now matchSubs st mc dc =
          ⟨{ st with isActive := true }, mc, dc, 0, 0, [], false⟩)
    ∧ (∀ (single : Sport.UpResult) (byDate : Int → Sport.UpResult) (sport : String)
        (today : Int) (now : Nat) (sid : Nat) (st : Sport.PState)
        (cache : Sport.Cache (List Sport.Rec)),
        Sport.TimerInv st.timerArmed st.timerCount →
        Sport.TimerInv
          (Sport.subscribeHandler single byDate sport today now sid st cache).st.timerArmed
          (Sport.subscribeHandler single byDate sport today now sid st cache).st.timerCount)
    ∧ (∀ (now : Nat) (sid : Nat) (st : Sport.PState),
        Sport.TimerInv st.timerArmed st.timerCount →
        Sport.TimerInv (Sport.unsubscribeHandler now sid st).timerArmed
          (Sport.unsubscribeHandler now sid st).timerCount)
    ∧ (∀ (now : Nat) (sid : Nat) (st : Sport.PState),
        Sport.TimerInv st.timerArmed st.timerCount →
        Sport.TimerInv (Sport.disconnectHandler now sid st).timerArmed
          (Sport.disconnectHandler now sid st).timerCount)
    ∧ (∀ (single : Sport.UpResult) (byDate : Int → Sport.UpResult) (sport : String)
        (today : Int) (now : Nat) (st : Sport.PState)
        (cache : Sport.Cache (List Sport.Rec)),
        Sport.TimerInv st.timerArmed st.timerCount →
        Sport.TimerInv (Sport.tick single byDate sport today now st cache).st.timerArmed
          (Sport.tick single byDate sport today now st cache).st.timerCount)
    ∧ (∀ (now : Nat) (st : Sport.PState),
        Sport.TimerInv st.timerArmed st.timerCount →
        Sport.TimerInv (Sport.sweep now st).timerArmed (Sport.sweep now st).timerCount)
    ∧ (∀ (mresp : Nat → IndexJs.MResp) (dresp : Nat → Sport.UpResult)
        (sport today : String) (now : Nat) (matchSubs : List Nat) (sid : Nat)
        (st : IndexJs.IState) (mc : Sport.Cache (List Sport.Rec))
        (dc : Sport.Cache Sport.JData),
        Sport.TimerInv st.timerArmed st.timerCount →
        Sport.TimerInv
          (IndexJs.subscribeMatchesHandler mresp dresp sport today now matchSubs sid st mc dc).st.timerArmed
          (IndexJs.subscribeMatchesHandler mresp dresp sport today now matchSubs sid st mc dc).st.timerCount)
    ∧ (∀ (now : Nat) (sid : Nat) (st : IndexJs.IState),
        Sport.TimerInv st.timerArmed st.timerCount →
        Sport.TimerInv (IndexJs.unsubscribeMatchesHandler now sid st).timerArmed
          (IndexJs.unsubscribeMatchesHandler now sid st).timerCount)
    ∧ (∀ (now : Nat) (sid : Nat) (st : IndexJs.IState),
        Sport.TimerInv st.timerArmed st.timerCount →
        Sport.TimerInv (IndexJs.disconnectMatchesHandler now sid st).timerArmed
          (IndexJs.disconnectMatchesHandler now sid st).timerCount)
    ∧ (∀ (mresp : Nat → IndexJs.MResp) (dresp : Nat → Sport.UpResult)
        (sport today : String) (now : Nat) (matchSubs : List Nat)
        (st : IndexJs.IState) (mc : Sport.Cache (List Sport.Rec))
        (dc : Sport.Cache Sport.JData),
        Sport.TimerInv st.timerArmed st.timerCount →
        Sport.TimerInv
          (IndexJs.updateMatches mresp dresp sport today now matchSubs st mc dc).st.timerArmed
          (IndexJs.updateMatches mresp dresp sport today now matchSubs st mc dc).st.timerCount)
    ∧ (∀ (now : Nat) (st : IndexJs.IState),
        Sport.TimerInv st.timerArmed st.timerCount →
        Sport.TimerInv (IndexJs.cleanupInactiveSubscriptions now st).timerArmed
          (IndexJs.cleanupInactiveSubscriptions now st).timerCount) :=
  ⟨Sport.startSportUpdates_armed,
   IndexJs.startMatchUpdates_armed,
   Sport.timerInv_subscribeHandler,
   Sport.timerInv_unsubscribeHandler,
   Sport.timerInv_disconnectHandler,
   Sport.timerInv_tick,
   Sport.timerInv_sweep,
   IndexJs.timerInv_subscribeMatchesHandler,
   IndexJs.timerInv_unsubscribeMatchesHandler,
   IndexJs.timerInv_disconnectMatchesHandler,
   IndexJs.timerInv_updateMatches,
   IndexJs.timerInv_cleanupInactiveSubscriptions⟩

/-- Witness for `c7_one_timer_per_topic`: starting an already-armed topic
in each scheduler changes nothing (part_000) or only `isActive` (index.js):
no fetch, no upstream call, no second timer. -/
theorem c7_one_timer_per_topic_witness :
    Sport.startSportUpdates (Sport.UpResult.ok Sport.JData.nul) Sport.bd42 "football" 0 0
        ⟨[5], true, 1, none⟩ [] =
      ⟨⟨[5], true, 1, none⟩, [], [], 0, 0, false⟩
    ∧ IndexJs.startMatchUpdates (fun _ => IndexJs.MResp.ok none)
        (fun _ => Sport.UpResult.ok Sport.JData.nul) "football" "d" 0 []
        ⟨[5], true, 1, none, false⟩ [] [] =
      ⟨⟨[5], true, 1, none, true⟩, [], [], 0, 0, [], false⟩ :=
  ⟨c7_one_timer_per_topic.1 (Sport.UpResult.ok Sport.JData.nul) Sport.bd42 "football" 0 0
      ⟨[5], true, 1, none⟩ [] rfl,
   c7_one_timer_per_topic.2.1 (fun _ => IndexJs.MResp.ok none)
      (fun _ => Sport.UpResult.ok Sport.JData.nul) "football" "d" 0 []
      ⟨[5], true, 1, none, false⟩ [] [] rfl⟩
